import Mathlib

/-!
Verification development for the Tkinter GUI progress-bar adapter
(`tqdm/tk.py`).  The Python classes `TqdmWidget`, `TqdmWindowMixin` and
`tqdm_tk` are embedded shallowly: widget and window state become Lean
structures, the methods become pure state-transition functions, warnings
and callback invocations become an explicit event list, and fallible
operations (attribute lookups that can fail in Python) return `Except`.
Text is modelled as `List Char`.
-/

abbrev Chars := List Char

/-- The literal `"<bar/>"` used by `TqdmWidget.display` as the placeholder
substituted for `{bar}` (written here with escaped braces). -/
def barTok : Chars := ['<', 'b', 'a', 'r', '/', '>']

/-- The literal `"{bar}"` placeholder of the meter format string. -/
def barPlaceholder : Chars := ['\x7b', 'b', 'a', 'r', '\x7d']

/-- The default bar format `"{l_bar}<bar/>{r_bar}"` used when the handle's
`bar_format` is `None` (tk.py line 88). -/
def defaultBarFormat : Chars :=
  ['\x7b', 'l', '_', 'b', 'a', 'r', '\x7d'] ++ barTok ++
  ['\x7b', 'r', '_', 'b', 'a', 'r', '\x7d']

/-- Whether `"<bar/>"` occurs in a string: the test `'<bar/>' in msg`
of tk.py line 91. -/
def containsBar : Chars → Bool
  | [] => false
  | c :: cs => barTok.isPrefixOf (c :: cs) || containsBar cs

/-- Drop a single leading `'|'` if present: the trailing `\|?` of the
regular expression `\|?<bar/>\|?`. -/
def dropPipe : Chars → Chars
  | '|' :: rest => rest
  | l => l

/-- `"".join(re.split(r'\|?<bar/>\|?', msg, 1))` (tk.py line 92): remove the
first occurrence of `"<bar/>"` together with an optional `'|'` immediately
before and after it.  The regular expression scans left to right; a match
starts at the optional pipe when one directly precedes the token. -/
def stripBarOnce : Chars → Chars
  | [] => []
  | c :: cs =>
    if c == '|' && barTok.isPrefixOf cs then dropPipe (cs.drop 6)
    else if barTok.isPrefixOf (c :: cs) then dropPipe (cs.drop 5)
    else c :: stripBarOnce cs

/-- `str.replace("{bar}", "<bar/>")` (tk.py lines 88-89): replace every
non-overlapping occurrence of `"{bar}"`, scanning left to right.  Implemented
with a fuel argument (the string length) so that it is structural. -/
def replaceBarTagAux : Nat → Chars → Chars
  | 0, l => l
  | _ + 1, [] => []
  | fuel + 1, c :: cs =>
    if barPlaceholder.isPrefixOf (c :: cs) then
      barTok ++ replaceBarTagAux fuel (cs.drop 4)
    else c :: replaceBarTagAux fuel cs

def replaceBarTag (l : Chars) : Chars := replaceBarTagAux l.length l

/-- The fields of the `tqdm` handle that `TqdmWidget` reads when rendering:
`self._tqdm.n`, `self._tqdm.total` and the `bar_format` entry of
`self._tqdm.format_dict`. -/
structure Snapshot where
  n : Int
  total : Option Int
  barFormat : Option Chars
deriving DecidableEq

/-- The snapshot handed to the external meter formatter by
`TqdmWidget.display`: the original snapshot with `bar_format` defaulted and
`{bar}` replaced by `"<bar/>"` (tk.py lines 86-89). -/
def displaySnapshot (tq : Snapshot) : Snapshot :=
  { tq with barFormat := some (replaceBarTag (tq.barFormat.getD defaultBarFormat)) }

inductive PBarMode where
  | determinate
  | indeterminate
deriving DecidableEq

/-- State of a `TqdmWidget` (a `ttk.Frame` holding a label, a progress bar
and optionally a cancel button).  `tkNVar`/`tkTextVar` are the `DoubleVar`
and `StringVar` bound to the bar and label; `pbarMaximum`/`pbarMode` are the
progress bar's `maximum` and `mode` options; `styleBackground` is the
background colour configured on the widget's private style. -/
structure TqdmWidget where
  tkNVar : Int
  tkTextVar : Chars
  pbarMaximum : Int
  pbarMode : PBarMode
  styleBackground : Option Chars
  hasCancelButton : Bool
  objId : Int
deriving DecidableEq

/-- `TqdmWidget.__init__` (tk.py lines 42-72).  `ttk.Progressbar` defaults
are `maximum=100` and `mode="determinate"`; the constructor overrides
`maximum` when the handle's total is known and switches to indeterminate
mode otherwise (lines 59-62).  The cancel button exists iff a cancel
callback was supplied (line 66). -/
def TqdmWidget.init (objId : Int) (total : Option Int) (cancelCb : Bool) : TqdmWidget :=
  { tkNVar := 0
    tkTextVar := []
    pbarMaximum := match total with | some t => t | none => 100
    pbarMode := match total with | some _ => .determinate | none => .indeterminate
    styleBackground := none
    hasCancelButton := cancelCb
    objId := objId }

/-- `TqdmWidget.display` (tk.py lines 84-95), parameterised by the external
meter formatter `fmt` (`self._tqdm.format_meter`, an external collaborator):
sets the bar variable to `n`, strips the first bar placeholder from the
formatted message, sets the label text, and turns the style green when
`n == total` (`None` compares unequal to any number). -/
def TqdmWidget.display (fmt : Snapshot → Chars) (tq : Snapshot) (w : TqdmWidget) : TqdmWidget :=
  let msg := fmt (displaySnapshot tq)
  let msg := if containsBar msg then stripBarOnce msg else msg
  { w with
    tkNVar := tq.n
    tkTextVar := msg
    styleBackground :=
      if some tq.n == tq.total then some "#5cb85c".data else w.styleBackground }

/-- `TqdmWidget.reset` (tk.py lines 97-102).  The `hasattr(self, '_tk_pbar')`
guard is always true for a constructed widget, since `__init__`
unconditionally sets `_tk_pbar`. -/
def TqdmWidget.reset (w : TqdmWidget) (total : Option Int) : TqdmWidget :=
  match total with
  | none => { w with pbarMaximum := 100, pbarMode := .indeterminate }
  | some t => { w with pbarMaximum := t, pbarMode := .determinate }

/-- The integer computed by `TqdmWidget.generate_id` (tk.py lines 74-82)
before rendering: `2*id` for a non-negative object id and `1 - 2*id`
otherwise. -/
def encodeId (objId : Int) : Int :=
  if 0 ≤ objId then 2 * objId else 1 - 2 * objId

/-- Decimal rendering of a natural number, modelling Python's `str()` on a
non-negative integer: most significant digit first, and `"0"` for zero. -/
def pyStrNat (n : Nat) : Chars :=
  if n = 0 then ['0']
  else ((Nat.digits 10 n).map (fun d => Char.ofNat (48 + d))).reverse

/-- `TqdmWidget.generate_id`: the encoded id rendered in decimal (both
branches of the source produce a non-negative value, so `str()` emits plain
digits). -/
def TqdmWidget.generate_id (objId : Int) : Chars :=
  pyStrNat (encodeId objId).toNat

/-- The style name `"tqdm%s.Horizontal.TProgressbar" % self.generate_id()`
(tk.py line 56). -/
def styleNameOf (objId : Int) : Chars :=
  "tqdm".data ++ TqdmWidget.generate_id objId ++ ".Horizontal.TProgressbar".data

/-! ## Window wrapper and handle -/

/-- Events observable outside the handle: warnings issued via `warnings.warn`
and invocations of user code, in program order. -/
inductive Ev where
  | warnExperimental
  | warnLeaveIgnored
  | userCancelCallback
  | closeTransition
deriving DecidableEq

/-- The function currently bound to the window's `WM_DELETE_WINDOW`
protocol. -/
inductive WmHandler where
  | cancelHandle
  | closeInternal
deriving DecidableEq

/-- State of a `TqdmWindowMixin` window (`TqdmTk` or `TqdmToplevel`):
the owned widget, the close-protocol binding, window-manager attributes,
and the pending entries of the Tk event queue that this code schedules
(`after(0, ...)` clearing topmost, `after(1, _display)` from
`tqdm_tk.display`, `after('idle', self.destroy)` from `_close`). -/
structure WindowState where
  widget : TqdmWidget
  wmDelete : WmHandler
  title : Option Chars
  topmost : Bool
  topmostClearPending : Bool
  displayPending : Bool
  idleDestroyPending : Bool
  destroyed : Bool
  grabbed : Bool
deriving DecidableEq

/-- `TqdmWindowMixin.__init__` (tk.py lines 109-122).  The mixin packs a
`TqdmWidget` built with the handle's `cancel` method as callback (always
present along the window paths, so the widget gets a cancel button), binds
`WM_DELETE_WINDOW` to that same callback, sets the title, raises the window
topmost and schedules clearing the flag on the next tick, and grabs input
when requested. -/
def TqdmWindowMixin.init (objId : Int) (total : Option Int) (desc : Option Chars)
    (grab : Bool) : WindowState :=
  { widget := TqdmWidget.init objId total true
    wmDelete := .cancelHandle
    title := desc
    topmost := true
    topmostClearPending := true
    displayPending := false
    idleDestroyPending := false
    destroyed := false
    grabbed := grab }

/-- `self.update()`: process the pending queue entries scheduled by this
code — clear the transient topmost flag, run a scheduled `_display`
(rendering the current snapshot through the meter formatter), and run a
scheduled `self.destroy`. -/
def tkUpdate (fmt : Snapshot → Chars) (snap : Snapshot) (w : WindowState) : WindowState :=
  let w := if w.topmostClearPending then
    { w with topmost := false, topmostClearPending := false } else w
  let w := if w.displayPending then
    { w with displayPending := false, widget := TqdmWidget.display fmt snap w.widget } else w
  if w.idleDestroyPending then
    { w with idleDestroyPending := false, destroyed := true } else w

/-- The local `_close` of `TqdmWindowMixin.close` (tk.py lines 126-129):
schedule `self.destroy` on the event loop's idle processing and, when the
process is not inside the Tk mainloop, pump the queue with `self.update()`
so the destroy actually runs. -/
def windowCloseInner (fmt : Snapshot → Chars) (snap : Snapshot) (dispatching : Bool)
    (w : WindowState) : WindowState :=
  let w := { w with idleDestroyPending := true }
  if dispatching then w else tkUpdate fmt snap w

/-- `TqdmWindowMixin.close` (tk.py lines 124-142), parameterised by the
handle fields it reads (`self._tqdm.leave`, `self._tqdm._warn_leave`,
`self._tqdm._tk_dispatching`).  It first rebinds `WM_DELETE_WINDOW` to
`_close`, then: with `leave` unset runs `_close` at once; with `leave` set
but no mainloop dispatching, warns (only when `leave` was explicitly passed)
and runs `_close`; otherwise leaves the window as it is. -/
def TqdmWindowMixin.close (fmt : Snapshot → Chars) (snap : Snapshot)
    (leave warnLeave dispatching : Bool) (w : WindowState) : WindowState × List Ev :=
  let w := { w with wmDelete := .closeInternal }
  if !leave then (windowCloseInner fmt snap dispatching w, [])
  else if !dispatching then
    (windowCloseInner fmt snap dispatching w,
     if warnLeave then [Ev.warnLeaveIgnored] else [])
  else (w, [])

/-- The object stored in `self._tk_window`: a `TqdmTk` root window, a
`TqdmToplevel`, or — with `new_window=False` and an explicit parent — a bare
`TqdmWidget` packed into the parent (tk.py lines 205-213).  The embedded
variant carries its own pending flag for `after(1, _display)`. -/
inductive WinObj where
  | tk (w : WindowState)
  | toplevel (w : WindowState)
  | embedded (w : TqdmWidget) (displayPending : Bool)
deriving DecidableEq

/-- The window state of a `_tk_window` that is an actual window. -/
def WinObj.state? : WinObj → Option WindowState
  | .tk w => some w
  | .toplevel w => some w
  | .embedded _ _ => none

/-- `self._tk_window.close()`: the mixin close for windows; `TqdmWidget.close`
is `pass` (tk.py lines 104-105). -/
def WinObj.close (fmt : Snapshot → Chars) (snap : Snapshot)
    (leave warnLeave dispatching : Bool) : WinObj → WinObj × List Ev
  | .tk w =>
    let p := TqdmWindowMixin.close fmt snap leave warnLeave dispatching w
    (.tk p.1, p.2)
  | .toplevel w =>
    let p := TqdmWindowMixin.close fmt snap leave warnLeave dispatching w
    (.toplevel p.1, p.2)
  | .embedded w pend => (.embedded w pend, [])

/-- `self._tk_window.after(1, _display)`: mark a widget render as pending on
the event queue. -/
def WinObj.scheduleDisplay : WinObj → WinObj
  | .tk w => .tk { w with displayPending := true }
  | .toplevel w => .toplevel { w with displayPending := true }
  | .embedded w _ => .embedded w true

/-- `self._tk_window.update()` on either window kind or on the embedded
widget. -/
def WinObj.update (fmt : Snapshot → Chars) (snap : Snapshot) : WinObj → WinObj
  | .tk w => .tk (tkUpdate fmt snap w)
  | .toplevel w => .toplevel (tkUpdate fmt snap w)
  | .embedded w pend =>
    if pend then .embedded (TqdmWidget.display fmt snap w) false
    else .embedded w false

/-- `self._tk_window.reset(total=total)` (tk.py lines 147-148 delegate to
the widget). -/
def WinObj.reset (total : Option Int) : WinObj → WinObj
  | .tk w => .tk { w with widget := TqdmWidget.reset w.widget total }
  | .toplevel w => .toplevel { w with widget := TqdmWidget.reset w.widget total }
  | .embedded w pend => .embedded (TqdmWidget.reset w total) pend

/-- The per-handle state of a `tqdm_tk` instance: the flags set during
`__init__` and the owned `_tk_window` (absent when construction was
disabled, in which case `_tk_dispatching` is likewise never assigned and the
stored value is irrelevant — no operation reads it before the `_tk_window`
lookup fails). -/
structure tqdm_tk where
  hid : Nat
  disable : Bool
  leave : Bool
  warnLeave : Bool
  tkDispatching : Bool
  hasCancelCallback : Bool
  snap : Snapshot
  window : Option WinObj
deriving DecidableEq

/-- A handle together with the process-wide `_instances` registry of the
base engine (handles recorded by their identity `hid`). -/
structure Sys where
  handle : tqdm_tk
  instances : List Nat
deriving DecidableEq

/-- Errors surfaced to the caller, modelling a Python `AttributeError`
carrying the attribute (or explanatory message) involved. -/
inductive Err where
  | attributeError (msg : Chars)
deriving DecidableEq

deriving instance DecidableEq for Except

/-- The message of the construction-time error (tk.py line 204). -/
def tkParentRequiredMsg : Chars :=
  "`tk_parent` required when using `tkinter.NoDefaultRoot()`".data

/-- The attribute named by the `AttributeError` raised when an operation
touches `self._tk_window` on a handle that never created one. -/
def tkWindowAttrMsg : Chars := "_tk_window".data

/-- The state of `tkinter._default_root` at construction time:
`missingAttr` models `tkinter.NoDefaultRoot()` having deleted the module
attribute; `noneRoot` models the attribute present but `None` (no root
window yet); `someRoot` models an existing default root window. -/
inductive DefaultRoot where
  | missingAttr
  | noneRoot
  | someRoot
deriving DecidableEq

/-- Modelled from the spec: the base engine (`tqdm.std`, outside `src/`)
stores the `leave` option from the construction keyword arguments; when the
caller does not pass `leave`, the engine's default keeps the display on
screen after completion (leave enabled).  That default is what makes the
`_warn_leave = 'leave' in kwargs` guard of tk.py line 189 meaningful: it
suppresses the close-time warning precisely for handles whose `leave` is
true only by default. -/
def stdDefaultLeave : Bool := true

/-- The keyword arguments of `tqdm_tk.__init__` that this model tracks.
`disable` is an `Option` because the source coerces `disable=None` to
`False` (tk.py line 188); `leave` is an `Option` because its mere presence
sets `_warn_leave` (line 189). -/
structure Kwargs where
  disable : Option Bool
  leave : Option Bool
  grab : Bool
  tkParent : Option Unit
  cancelCallback : Bool
  newWindow : Bool
  total : Option Int
  desc : Option Chars
  barFormat : Option Chars
deriving DecidableEq

/-- `tqdm_tk.__init__` (tk.py lines 170-216).  Besides the keyword
arguments it takes the environment the constructor inspects: the state of
`tkinter._default_root`, the result of `_tk_dispatching_helper()` (whether a
Tk mainloop is currently dispatching), the handle's identity `hid`, the
initial `_instances` registry, and the memory id of the widget to be
created.  Mirrors the source order: coerce `disable`, record
`_warn_leave = 'leave' in kwargs`, pop the GUI-specific options, run the
base-engine `__init__` (modelled from the spec: a non-disabled handle is
added to the process-wide registry of live handles; `leave` is stored with
the engine's default when absent), return early when disabled, otherwise
resolve the parent and create the window (or embedded widget), then emit
the experimental warning and capture the dispatching flag.

On the error path (`tk_parent` unresolvable) the model returns only the
error; the base-engine registration that Python performed before the raise
is not tracked, as no claim observes a handle whose construction raised. -/
def tqdm_tk.init (kw : Kwargs) (defaultRoot : DefaultRoot) (dispatchingNow : Bool)
    (hid : Nat) (instances0 : List Nat) (objId : Int) :
    Except Err (Sys × List Ev) :=
  let disable := kw.disable.getD false
  let warnLeave := kw.leave.isSome
  let leave := kw.leave.getD stdDefaultLeave
  let snap : Snapshot := { n := 0, total := kw.total, barFormat := kw.barFormat }
  if disable then
    .ok ({ handle := { hid := hid, disable := true, leave := leave, warnLeave := warnLeave,
                       tkDispatching := false, hasCancelCallback := kw.cancelCallback,
                       snap := snap, window := none },
           instances := instances0 }, [])
  else
    let mk (w : WinObj) : Sys :=
      { handle := { hid := hid, disable := false, leave := leave, warnLeave := warnLeave,
                    tkDispatching := dispatchingNow, hasCancelCallback := kw.cancelCallback,
                    snap := snap, window := some w },
        instances := instances0 ++ [hid] }
    match kw.tkParent with
    | none =>
      match defaultRoot with
      | .missingAttr => .error (.attributeError tkParentRequiredMsg)
      | .noneRoot =>
        .ok (mk (.tk (TqdmWindowMixin.init objId kw.total kw.desc kw.grab)),
             [Ev.warnExperimental])
      | .someRoot =>
        .ok (mk (.toplevel (TqdmWindowMixin.init objId kw.total kw.desc kw.grab)),
             [Ev.warnExperimental])
    | some _ =>
      if kw.newWindow then
        .ok (mk (.toplevel (TqdmWindowMixin.init objId kw.total kw.desc kw.grab)),
             [Ev.warnExperimental])
      else
        .ok (mk (.embedded (TqdmWidget.init objId kw.total true) false),
             [Ev.warnExperimental])

/-- `tqdm_tk.close` (tk.py lines 218-227): return at once when already
disabled; otherwise set `disable`, remove the handle from the registry under
the shared lock, and close the window.  The `closeTransition` event marks
this active-to-closing transition.  A non-disabled handle without a
`_tk_window` (unreachable for constructed handles) yields the attribute
error; as with every error path, prior mutations are not tracked. -/
def tqdm_tk.close (fmt : Snapshot → Chars) (s : Sys) : Except Err (Sys × List Ev) :=
  if s.handle.disable then .ok (s, [])
  else
    match s.handle.window with
    | none => .error (.attributeError tkWindowAttrMsg)
    | some wobj =>
      let p := wobj.close fmt s.handle.snap s.handle.leave s.handle.warnLeave
        s.handle.tkDispatching
      .ok ({ handle := { s.handle with disable := true, window := some p.1 },
             instances := s.instances.erase s.handle.hid },
           Ev.closeTransition :: p.2)

/-- `tqdm_tk.cancel` (tk.py lines 229-236): invoke the user callback when
one was supplied, then `close()`. -/
def tqdm_tk.cancel (fmt : Snapshot → Chars) (s : Sys) : Except Err (Sys × List Ev) :=
  let cbEvs := if s.handle.hasCancelCallback then [Ev.userCancelCallback] else []
  match tqdm_tk.close fmt s with
  | .ok (s', evs) => .ok (s', cbEvs ++ evs)
  | .error e => .error e

/-- `tqdm_tk.display` (tk.py lines 241-246): schedule the widget render with
`after(1, _display)` and, when no mainloop is dispatching, pump the queue
with `update()` so the render becomes visible at once.  On a disabled handle
the very first statement touches the missing `_tk_window` and raises. -/
def tqdm_tk.display (fmt : Snapshot → Chars) (s : Sys) : Except Err (Sys × List Ev) :=
  match s.handle.window with
  | none => .error (.attributeError tkWindowAttrMsg)
  | some wobj =>
    let wobj := wobj.scheduleDisplay
    let wobj := if s.handle.tkDispatching then wobj else wobj.update fmt s.handle.snap
    .ok ({ s with handle := { s.handle with window := some wobj } }, [])

/-- `tqdm_tk.reset` (tk.py lines 258-267): delegate to the window's reset,
then to the base engine's reset (modelled from the spec: the engine resets
its counter to zero and a supplied total becomes the new total).  On a
disabled handle the first statement touches the missing `_tk_window` and
raises. -/
def tqdm_tk.reset (s : Sys) (total : Option Int) : Except Err (Sys × List Ev) :=
  match s.handle.window with
  | none => .error (.attributeError tkWindowAttrMsg)
  | some wobj =>
    let wobj := wobj.reset total
    let snap := { s.handle.snap with
      n := 0
      total := match total with | some t => some t | none => s.handle.snap.total }
    .ok ({ s with handle := { s.handle with window := some wobj, snap := snap } }, [])

/-- The user clicking the window's native close control: Tk invokes whatever
is bound to `WM_DELETE_WINDOW` — the handle's `cancel` right after
construction (tk.py line 114), or the local `_close` once `close()` rebound
it (line 131).  `none` when the handle has no window with a close control. -/
def triggerCloseControl (fmt : Snapshot → Chars) (s : Sys) :
    Option (Except Err (Sys × List Ev)) :=
  match s.handle.window with
  | some (.tk w) =>
    match w.wmDelete with
    | .cancelHandle => some (tqdm_tk.cancel fmt s)
    | .closeInternal =>
      some (.ok ({ s with handle := { s.handle with
        window := some (.tk (windowCloseInner fmt s.handle.snap s.handle.tkDispatching w)) } },
        []))
  | some (.toplevel w) =>
    match w.wmDelete with
    | .cancelHandle => some (tqdm_tk.cancel fmt s)
    | .closeInternal =>
      some (.ok ({ s with handle := { s.handle with
        window := some (.toplevel (windowCloseInner fmt s.handle.snap s.handle.tkDispatching w)) } },
        []))
  | _ => none

/-- Observation helpers used by concrete evaluations. -/
def Sys.winState (s : Sys) : Option WindowState :=
  s.handle.window.bind WinObj.state?

def resEvs : Except Err (Sys × List Ev) → List Ev
  | .ok (_, evs) => evs
  | .error _ => []

def sysDefault : Sys :=
  { handle := { hid := 0, disable := true, leave := true, warnLeave := false,
                tkDispatching := false, hasCancelCallback := false,
                snap := { n := 0, total := none, barFormat := none }, window := none },
    instances := [] }

def getSys (r : Except Err (Sys × List Ev)) : Sys :=
  match r with
  | .ok (s, _) => s
  | .error _ => sysDefault

/-! ## Concrete fixtures and observation helpers for the claims -/

/-- A formatter producing the empty string; used where the meter formatter's
output is irrelevant. -/
def fmtEmpty : Snapshot → Chars := fun _ => []

/-- Baseline keyword arguments: everything left at its source default. -/
def kwBase : Kwargs :=
  { disable := none
    leave := none
    grab := false
    tkParent := none
    cancelCallback := false
    newWindow := true
    total := some 10
    desc := none
    barFormat := none }

/-- A handle constructed with all defaults, no pre-existing default root,
outside any mainloop. -/
def sysND : Sys := getSys (tqdm_tk.init kwBase .noneRoot false 7 [] 3)

def isOk : Except Err (Sys × List Ev) → Bool
  | .ok _ => true
  | .error _ => false

def winDestroyed (s : Sys) : Option Bool :=
  match s.winState with
  | some w => some w.destroyed
  | none => none

def winIdlePending (s : Sys) : Option Bool :=
  match s.winState with
  | some w => some w.idleDestroyPending
  | none => none

def winWmDelete (s : Sys) : Option WmHandler :=
  match s.winState with
  | some w => some w.wmDelete
  | none => none

/-- The system state after the user clicks the window's close control. -/
def trigSys (fmt : Snapshot → Chars) (s : Sys) : Option Sys :=
  (triggerCloseControl fmt s).map getSys

def windowStateDefault : WindowState :=
  { widget := TqdmWidget.init 0 none false
    wmDelete := .cancelHandle
    title := none
    topmost := false
    topmostClearPending := false
    displayPending := false
    idleDestroyPending := false
    destroyed := false
    grabbed := false }

def winStateOf (s : Sys) : WindowState := s.winState.getD windowStateDefault

/-- Formatter whose output contains the bar placeholder twice. -/
def c9fmt : Snapshot → Chars := fun _ => barTok ++ barTok

def c9snap : Snapshot := { n := 0, total := none, barFormat := none }

def c9widget : TqdmWidget := TqdmWidget.init 0 none false

/-- Formatter used by the C9 witness. -/
def c9wfmt : Snapshot → Chars :=
  fun _ => "x".data ++ ('|' :: (barTok ++ '|' :: "y<bar/>z".data))

/-- A handle constructed with `disable=True`. -/
def c1kw : Kwargs := { kwBase with disable := some true }

def c1sys : Sys := getSys (tqdm_tk.init c1kw .noneRoot false 7 [] 3)

/-- A handle constructed with an explicit `leave=True` while a mainloop is
dispatching. -/
def c4sys : Sys :=
  getSys (tqdm_tk.init { kwBase with leave := some true } .noneRoot true 7 [] 3)

/-- A handle constructed with `leave=False` while a mainloop is
dispatching. -/
def c5sys : Sys :=
  getSys (tqdm_tk.init { kwBase with leave := some false } .noneRoot true 7 [] 3)

/-- A handle constructed with a user cancel callback, under an existing
default root. -/
def c8sys : Sys :=
  getSys (tqdm_tk.init { kwBase with cancelCallback := true } .someRoot false 7 [] 3)

/-! ## Sanity evaluations of the text handling -/

example : stripBarOnce "a|<bar/>|b".data = "ab".data := by decide
example : stripBarOnce "a||<bar/>b".data = "a|b".data := by decide
example : stripBarOnce "<bar/><bar/>".data = "<bar/>".data := by decide
example : replaceBarTag "x\x7bbar\x7dy".data = "x<bar/>y".data := by decide
example : TqdmWidget.generate_id (-1) = ['3'] := by
  simp [TqdmWidget.generate_id, encodeId, pyStrNat]

/-! ## Lemmas about the bar-placeholder stripping -/

theorem isPrefixOf_append_self (t l : Chars) : t.isPrefixOf (t ++ l) = true := by
  induction t with
  | nil => simp only [List.nil_append]; cases l <;> rfl
  | cons a t ih => simp [List.isPrefixOf, ih]

/-- A token containing no `c` that is a prefix of `xs ++ c :: ys` already
fits inside `xs`: no occurrence of `"<bar/>"` can straddle a `'|'`. -/
theorem isPrefixOf_of_append_cons {t xs ys : Chars} {c : Char} (hc : c ∉ t)
    (h : t.isPrefixOf (xs ++ c :: ys) = true) : t.isPrefixOf xs = true := by
  induction t generalizing xs with
  | nil => cases xs <;> rfl
  | cons a t ih =>
    cases xs with
    | nil =>
      simp only [List.nil_append, List.isPrefixOf, Bool.and_eq_true, beq_iff_eq] at h
      exact absurd (h.1 ▸ List.mem_cons_self a t) hc
    | cons x xs =>
      simp only [List.cons_append, List.isPrefixOf, Bool.and_eq_true] at h ⊢
      exact ⟨h.1, ih (fun hm => hc (List.mem_cons_of_mem _ hm)) h.2⟩

theorem containsBar_of_isPrefixOf {l : Chars} (h : barTok.isPrefixOf l = true) :
    containsBar l = true := by
  cases l with
  | nil => simp [barTok, List.isPrefixOf] at h
  | cons c cs => simp [containsBar, h]

theorem containsBar_append_tok (xs ys : Chars) :
    containsBar (xs ++ (barTok ++ ys)) = true := by
  induction xs with
  | nil =>
    simpa using containsBar_of_isPrefixOf (isPrefixOf_append_self barTok ys)
  | cons c cs ih => simp [containsBar, ih]

/-- The regular-expression split removes exactly the first placeholder with
its adjacent pipes, and leaves everything after the match — including any
further placeholders in `post` — verbatim. -/
theorem stripBarOnce_first {pre : Chars} (post : Chars)
    (hpre : containsBar pre = false) :
    stripBarOnce (pre ++ ('|' :: (barTok ++ '|' :: post))) = pre ++ post := by
  induction pre with
  | nil =>
    simp only [List.nil_append, stripBarOnce, isPrefixOf_append_self, beq_self_eq_true,
      Bool.and_self, if_true]
    simp [barTok, dropPipe]
  | cons c cs ih =>
    simp only [containsBar, Bool.or_eq_false_iff] at hpre
    have hB : barTok.isPrefixOf (cs ++ ('|' :: (barTok ++ '|' :: post))) = false := by
      cases hb : barTok.isPrefixOf (cs ++ ('|' :: (barTok ++ '|' :: post))) with
      | false => rfl
      | true =>
        exact absurd (containsBar_of_isPrefixOf (isPrefixOf_of_append_cons (by decide) hb))
          (by simp [hpre.2])
    have hB2 : barTok.isPrefixOf (c :: (cs ++ ('|' :: (barTok ++ '|' :: post)))) = false := by
      cases hb : barTok.isPrefixOf (c :: (cs ++ ('|' :: (barTok ++ '|' :: post)))) with
      | false => rfl
      | true =>
        have : barTok.isPrefixOf ((c :: cs) ++ ('|' :: (barTok ++ '|' :: post))) = true := by
          simpa using hb
        exact absurd (isPrefixOf_of_append_cons (by decide) this) (by simp [hpre.1])
    simp [stripBarOnce, List.append_eq, hB, hB2, ih hpre.2]

/-! ## Lemmas about `generate_id` -/

theorem encodeId_nonneg (i : Int) : 0 ≤ encodeId i := by
  unfold encodeId; split <;> omega

theorem encodeId_inj {a b : Int} (h : encodeId a = encodeId b) : a = b := by
  unfold encodeId at h
  split at h <;> split at h <;> omega

theorem digitToChar_toNat {d : Nat} (hd : d < 10) :
    (Char.ofNat (48 + d)).toNat = 48 + d := by
  interval_cases d <;> decide

theorem map_digitToChar_inj :
    ∀ (l₁ l₂ : List Nat), (∀ d ∈ l₁, d < 10) → (∀ d ∈ l₂, d < 10) →
      l₁.map (fun d => Char.ofNat (48 + d)) = l₂.map (fun d => Char.ofNat (48 + d)) →
      l₁ = l₂ := by
  intro l₁
  induction l₁ with
  | nil =>
    intro l₂ _ _ h
    cases l₂ with
    | nil => rfl
    | cons b bs => simp at h
  | cons a as ih =>
    intro l₂ h₁ h₂ h
    cases l₂ with
    | nil => simp at h
    | cons b bs =>
      simp only [List.map_cons, List.cons.injEq] at h
      have ha : a < 10 := h₁ a (List.mem_cons_self a as)
      have hb : b < 10 := h₂ b (List.mem_cons_self b bs)
      have hn : (48 : Nat) + a = 48 + b := by
        have := congrArg Char.toNat h.1
        rwa [digitToChar_toNat ha, digitToChar_toNat hb] at this
      have hab : a = b := by omega
      subst hab
      exact congrArg (a :: ·)
        (ih bs (fun d hd => h₁ d (List.mem_cons_of_mem _ hd))
          (fun d hd => h₂ d (List.mem_cons_of_mem _ hd)) h.2)

theorem pyStrNat_inj {m n : Nat} (h : pyStrNat m = pyStrNat n) : m = n := by
  unfold pyStrNat at h
  by_cases hm : m = 0 <;> by_cases hn : n = 0
  · omega
  · rw [if_pos hm, if_neg hn] at h
    have h' : (Nat.digits 10 n).map (fun d => Char.ofNat (48 + d)) = ['0'] := by
      have := congrArg List.reverse h
      simpa using this.symm
    have hdn : Nat.digits 10 n = [0] :=
      map_digitToChar_inj _ [0] (fun d hd => Nat.digits_lt_base (by norm_num) hd)
        (by simp) (by simpa using h')
    have hod := Nat.ofDigits_digits 10 n
    rw [hdn] at hod
    simp [Nat.ofDigits] at hod
    omega
  · rw [if_neg hm, if_pos hn] at h
    have h' : (Nat.digits 10 m).map (fun d => Char.ofNat (48 + d)) = ['0'] := by
      have := congrArg List.reverse h
      simpa using this
    have hdm : Nat.digits 10 m = [0] :=
      map_digitToChar_inj _ [0] (fun d hd => Nat.digits_lt_base (by norm_num) hd)
        (by simp) (by simpa using h')
    have hod := Nat.ofDigits_digits 10 m
    rw [hdm] at hod
    simp [Nat.ofDigits] at hod
    omega
  · rw [if_neg hm, if_neg hn] at h
    have h' := List.reverse_injective h
    have := map_digitToChar_inj _ _
      (fun d hd => Nat.digits_lt_base (by norm_num) hd)
      (fun d hd => Nat.digits_lt_base (by norm_num) hd) h'
    exact Nat.digits_inj_iff.mp this

theorem generate_id_inj {a b : Int}
    (h : TqdmWidget.generate_id a = TqdmWidget.generate_id b) : a = b := by
  unfold TqdmWidget.generate_id at h
  have h2 := pyStrNat_inj h
  have h3 := congrArg (fun k : Nat => (k : Int)) h2
  simp only [Int.toNat_of_nonneg (encodeId_nonneg a),
    Int.toNat_of_nonneg (encodeId_nonneg b)] at h3
  exact encodeId_inj h3

theorem styleNameOf_inj {a b : Int} (h : styleNameOf a = styleNameOf b) : a = b := by
  unfold styleNameOf at h
  rw [List.append_assoc, List.append_assoc] at h
  exact generate_id_inj (List.append_cancel_right (List.append_cancel_left h))

/-! ## Claims -/

/-- Claim C6: a widget constructed with an unknown total is put in
indeterminate mode, and with a known total `t` its bar maximum is `t` in
determinate mode; `reset` re-establishes the same configuration, an absent
total yielding indeterminate mode with the nominal range 100. -/
theorem claim_c6_widget_total_mode :
    ∀ (objId : Int) (cb : Bool) (t : Int) (w : TqdmWidget) (t' : Int),
      (TqdmWidget.init objId none cb).pbarMode = PBarMode.indeterminate ∧
      (TqdmWidget.init objId (some t) cb).pbarMode = PBarMode.determinate ∧
      (TqdmWidget.init objId (some t) cb).pbarMaximum = t ∧
      (TqdmWidget.reset w none).pbarMode = PBarMode.indeterminate ∧
      (TqdmWidget.reset w none).pbarMaximum = 100 ∧
      (TqdmWidget.reset w (some t')).pbarMode = PBarMode.determinate ∧
      (TqdmWidget.reset w (some t')).pbarMaximum = t' := by
  intro objId cb t w t'
  exact ⟨rfl, rfl, rfl, rfl, rfl, rfl, rfl⟩

/-- Claim C7: constructing a non-disabled handle with no explicit
`tk_parent` while `tkinter._default_root` has been deleted by
`tkinter.NoDefaultRoot()` raises an `AttributeError` telling the caller to
supply `tk_parent`; the error result carries no handle, so no window is
created. -/
theorem claim_c7_no_default_root (kw : Kwargs) (dispNow : Bool) (hid : Nat)
    (inst : List Nat) (objId : Int)
    (hparent : kw.tkParent = none) (hdis : kw.disable.getD false = false) :
    tqdm_tk.init kw .missingAttr dispNow hid inst objId =
      .error (.attributeError tkParentRequiredMsg) := by
  unfold tqdm_tk.init
  simp [hparent, hdis]

theorem claim_c7_witness :
    tqdm_tk.init kwBase .missingAttr false 7 [] 3 =
      .error (.attributeError tkParentRequiredMsg) :=
  claim_c7_no_default_root kwBase false 7 [] 3 rfl rfl

/-- Claim C10: the `generate_id` encoding maps a non-negative id `n` to
`2*n` and a negative id to `1-2*n`, is never negative, and the decimal
style names it produces are distinct for distinct ids. -/
theorem claim_c10_generate_id :
    (∀ i : Int, 0 ≤ encodeId i ∧
      encodeId i = (if 0 ≤ i then 2 * i else 1 - 2 * i)) ∧
    (∀ i j : Int, styleNameOf i = styleNameOf j → i = j) := by
  constructor
  · intro i
    exact ⟨encodeId_nonneg i, rfl⟩
  · intro i j h
    exact styleNameOf_inj h

theorem claim_c10_witness : 0 ≤ encodeId (-5) ∧ (-7 : Int) = -7 :=
  ⟨(claim_c10_generate_id.1 (-5)).1, claim_c10_generate_id.2 (-7) (-7) rfl⟩

/-- Claim C9 counterexample: when the meter formatter's output contains the
bar placeholder twice, the label text still contains `"<bar/>"` after
display — the claim that every occurrence is stripped fails (the source
splits with `maxsplit=1`). -/
theorem claim_c9_counterexample :
    (TqdmWidget.display c9fmt c9snap c9widget).tkTextVar = barTok ∧
    containsBar (TqdmWidget.display c9fmt c9snap c9widget).tkTextVar = true := by
  decide

/-- Claim C9 (amended): the label text is the formatter's output with only
the FIRST occurrence of the bar placeholder (and its adjacent pipe
delimiters) removed; everything after the match, including any later
occurrence, is kept verbatim. -/
theorem claim_c9_strip_first_only (w : TqdmWidget) (tq : Snapshot)
    (fmt : Snapshot → Chars) (pre post : Chars)
    (hpre : containsBar pre = false)
    (hmsg : fmt (displaySnapshot tq) = pre ++ ('|' :: (barTok ++ '|' :: post))) :
    (TqdmWidget.display fmt tq w).tkTextVar = pre ++ post := by
  unfold TqdmWidget.display
  simp only [hmsg]
  have hc : containsBar (pre ++ ('|' :: (barTok ++ '|' :: post))) = true := by
    have h := containsBar_append_tok (pre ++ ['|']) ('|' :: post)
    simpa [List.append_assoc] using h
  simp only [hc, if_true]
  exact stripBarOnce_first post hpre

theorem claim_c9_witness :
    (TqdmWidget.display c9wfmt c9snap c9widget).tkTextVar = "x".data ++ "y<bar/>z".data :=
  claim_c9_strip_first_only c9widget c9snap c9wfmt "x".data "y<bar/>z".data (by decide) rfl

/-- Claim C1 counterexample: on a handle constructed with `disable=true`,
`display()` and `reset()` are not no-ops: the very first statement of each
reads the never-assigned `_tk_window` attribute and raises
`AttributeError`. -/
theorem claim_c1_counterexample :
    c1sys.handle.disable = true ∧ c1sys.handle.window = none ∧
    tqdm_tk.display fmtEmpty c1sys = .error (.attributeError tkWindowAttrMsg) ∧
    tqdm_tk.reset c1sys none = .error (.attributeError tkWindowAttrMsg) := by
  decide

/-- Claim C1 (amended): constructing with `disable=true` creates no window
and emits no warning, and `close()` on such a handle is a complete no-op;
`display()` and `reset()`, however, raise an `AttributeError` for the
missing `_tk_window` (without otherwise changing state) rather than
returning silently. -/
theorem claim_c1_disabled (fmt : Snapshot → Chars) (kw : Kwargs) (root : DefaultRoot)
    (dispNow : Bool) (hid : Nat) (inst : List Nat) (objId : Int) (total : Option Int)
    (s : Sys) (evs : List Ev)
    (hdis : kw.disable = some true)
    (hinit : tqdm_tk.init kw root dispNow hid inst objId = .ok (s, evs)) :
    evs = [] ∧ s.handle.window = none ∧ s.handle.disable = true ∧
    tqdm_tk.close fmt s = .ok (s, []) ∧
    tqdm_tk.display fmt s = .error (.attributeError tkWindowAttrMsg) ∧
    tqdm_tk.reset s total = .error (.attributeError tkWindowAttrMsg) := by
  unfold tqdm_tk.init at hinit
  rw [hdis] at hinit
  simp only [Option.getD_some, if_true] at hinit
  injection hinit with h
  injection h with h1 h2
  subst h1
  subst h2
  exact ⟨rfl, rfl, rfl, rfl, rfl, rfl⟩

theorem claim_c1_witness :
    ([] : List Ev) = [] ∧ c1sys.handle.window = none ∧ c1sys.handle.disable = true ∧
    tqdm_tk.close fmtEmpty c1sys = .ok (c1sys, []) ∧
    tqdm_tk.display fmtEmpty c1sys = .error (.attributeError tkWindowAttrMsg) ∧
    tqdm_tk.reset c1sys none = .error (.attributeError tkWindowAttrMsg) :=
  claim_c1_disabled fmtEmpty c1kw .noneRoot false 7 [] 3 none c1sys [] rfl (by decide)

/-- Claim C2: `close()` is idempotent — whenever a `close()` call succeeds,
the handle it returns is disabled, and a second `close()` finds it disabled
and returns the very same state with no events (no registry removal, no
window operation). -/
theorem claim_c2_close_idempotent (fmt : Snapshot → Chars) (s s₁ : Sys) (evs : List Ev)
    (h : tqdm_tk.close fmt s = .ok (s₁, evs)) :
    s₁.handle.disable = true ∧ tqdm_tk.close fmt s₁ = .ok (s₁, []) := by
  unfold tqdm_tk.close at h
  by_cases hd : s.handle.disable = true
  · simp only [hd, if_true] at h
    injection h with h'
    injection h' with h1 h2
    subst h1
    constructor
    · exact hd
    · unfold tqdm_tk.close
      simp [hd]
  · simp only [hd, if_false, Bool.false_eq_true] at h
    cases hw : s.handle.window with
    | none => rw [hw] at h; exact absurd h (by simp)
    | some wobj =>
      rw [hw] at h
      injection h with h'
      injection h' with h1 h2
      subst h1
      refine ⟨rfl, ?_⟩
      unfold tqdm_tk.close
      simp

theorem claim_c2_witness :
    (getSys (tqdm_tk.close fmtEmpty sysND)).handle.disable = true ∧
    tqdm_tk.close fmtEmpty (getSys (tqdm_tk.close fmtEmpty sysND)) =
      .ok (getSys (tqdm_tk.close fmtEmpty sysND), []) :=
  claim_c2_close_idempotent fmtEmpty sysND (getSys (tqdm_tk.close fmtEmpty sysND))
    (resEvs (tqdm_tk.close fmtEmpty sysND)) (by decide)

/-- Claim C3 counterexample: a handle whose `leave` is true only by the
base engine's default (the caller never passed `leave`, so
`_warn_leave = False`), constructed outside any mainloop: `close()`
destroys the window immediately but emits NO leave-ignored warning,
refuting the claim that every such handle warns. -/
theorem claim_c3_counterexample :
    sysND.handle.leave = true ∧ sysND.handle.disable = false ∧
    sysND.handle.tkDispatching = false ∧
    resEvs (tqdm_tk.close fmtEmpty sysND) = [Ev.closeTransition] ∧
    Ev.warnLeaveIgnored ∉ resEvs (tqdm_tk.close fmtEmpty sysND) ∧
    winDestroyed (getSys (tqdm_tk.close fmtEmpty sysND)) = some true := by
  decide

/-- Claim C3 (amended): for a live windowed handle with `leave=true`
constructed outside a mainloop, `close()` destroys the window immediately
(the idle-scheduled destroy is pumped synchronously), and the
"leave ignored" warning is emitted if and only if `leave` was explicitly
passed at construction (`_warn_leave`). -/
theorem claim_c3_leave_no_mainloop (fmt : Snapshot → Chars) (s : Sys) (w : WindowState)
    (hdis : s.handle.disable = false) (hleave : s.handle.leave = true)
    (hdisp : s.handle.tkDispatching = false) (hw : s.winState = some w) :
    isOk (tqdm_tk.close fmt s) = true ∧
    resEvs (tqdm_tk.close fmt s) =
      Ev.closeTransition :: (if s.handle.warnLeave then [Ev.warnLeaveIgnored] else []) ∧
    winDestroyed (getSys (tqdm_tk.close fmt s)) = some true ∧
    winIdlePending (getSys (tqdm_tk.close fmt s)) = some false := by
  unfold Sys.winState at hw
  cases hwin : s.handle.window with
  | none => rw [hwin] at hw; exact absurd hw (by simp)
  | some wobj =>
    cases wobj with
    | tk w0 =>
      refine ⟨?_, ?_, ?_, ?_⟩ <;>
        simp [tqdm_tk.close, WinObj.close, TqdmWindowMixin.close, windowCloseInner,
          tkUpdate, hdis, hleave, hdisp, hwin, isOk, resEvs, getSys, winDestroyed,
          winIdlePending, Sys.winState, WinObj.state?] <;>
        split <;> simp <;> split <;> simp
    | toplevel w0 =>
      refine ⟨?_, ?_, ?_, ?_⟩ <;>
        simp [tqdm_tk.close, WinObj.close, TqdmWindowMixin.close, windowCloseInner,
          tkUpdate, hdis, hleave, hdisp, hwin, isOk, resEvs, getSys, winDestroyed,
          winIdlePending, Sys.winState, WinObj.state?] <;>
        split <;> simp <;> split <;> simp
    | embedded w0 p =>
      rw [hwin] at hw
      exact absurd hw (by simp [WinObj.state?])

theorem claim_c3_witness :
    isOk (tqdm_tk.close fmtEmpty sysND) = true ∧
    resEvs (tqdm_tk.close fmtEmpty sysND) =
      Ev.closeTransition ::
        (if sysND.handle.warnLeave then [Ev.warnLeaveIgnored] else []) ∧
    winDestroyed (getSys (tqdm_tk.close fmtEmpty sysND)) = some true ∧
    winIdlePending (getSys (tqdm_tk.close fmtEmpty sysND)) = some false :=
  claim_c3_leave_no_mainloop fmtEmpty sysND (winStateOf sysND)
    (by decide) (by decide) (by decide) (by decide)

/-- Claim C4 counterexample: with `leave=true` inside a mainloop, `close()`
neither performs nor schedules any destruction — the idle queue stays empty
and the window is not destroyed, refuting the claim that the destroy is
scheduled on the loop's idle processing. -/
theorem claim_c4_counterexample :
    c4sys.handle.leave = true ∧ c4sys.handle.tkDispatching = true ∧
    c4sys.handle.disable = false ∧
    winIdlePending (getSys (tqdm_tk.close fmtEmpty c4sys)) = some false ∧
    winDestroyed (getSys (tqdm_tk.close fmtEmpty c4sys)) = some false := by
  decide

/-- Claim C4 (amended): for a live windowed handle with `leave=true`
constructed while a mainloop dispatches, `close()` emits no warning and
leaves the window fully intact except for rebinding its close protocol to
the internal `_close`; only when the user later activates the close control
is the destroy scheduled on the loop's idle processing (and still not
performed synchronously). -/
theorem claim_c4_leave_in_mainloop (fmt : Snapshot → Chars) (s : Sys) (w : WindowState)
    (hdis : s.handle.disable = false) (hleave : s.handle.leave = true)
    (hdisp : s.handle.tkDispatching = true) (hw : s.winState = some w) :
    tqdm_tk.close fmt s = .ok (getSys (tqdm_tk.close fmt s), [Ev.closeTransition]) ∧
    (getSys (tqdm_tk.close fmt s)).winState =
      some { w with wmDelete := WmHandler.closeInternal } ∧
    (trigSys fmt (getSys (tqdm_tk.close fmt s))).map winIdlePending = some (some true) ∧
    (trigSys fmt (getSys (tqdm_tk.close fmt s))).map winDestroyed =
      some (some w.destroyed) := by
  unfold Sys.winState at hw
  cases hwin : s.handle.window with
  | none => rw [hwin] at hw; exact absurd hw (by simp)
  | some wobj =>
    cases wobj with
    | tk w0 =>
      rw [hwin] at hw
      have hww : w0 = w := by
        have := hw
        simp [WinObj.state?] at this
        exact this
      subst hww
      refine ⟨?_, ?_, ?_, ?_⟩ <;>
        simp [tqdm_tk.close, WinObj.close, TqdmWindowMixin.close, windowCloseInner,
          tkUpdate, hdis, hleave, hdisp, hwin, isOk, resEvs, getSys, winDestroyed,
          winIdlePending, Sys.winState, WinObj.state?, trigSys, triggerCloseControl]
    | toplevel w0 =>
      rw [hwin] at hw
      have hww : w0 = w := by
        have := hw
        simp [WinObj.state?] at this
        exact this
      subst hww
      refine ⟨?_, ?_, ?_, ?_⟩ <;>
        simp [tqdm_tk.close, WinObj.close, TqdmWindowMixin.close, windowCloseInner,
          tkUpdate, hdis, hleave, hdisp, hwin, isOk, resEvs, getSys, winDestroyed,
          winIdlePending, Sys.winState, WinObj.state?, trigSys, triggerCloseControl]
    | embedded w0 p =>
      rw [hwin] at hw
      exact absurd hw (by simp [WinObj.state?])

theorem claim_c4_witness :
    tqdm_tk.close fmtEmpty c4sys = .ok (getSys (tqdm_tk.close fmtEmpty c4sys), [Ev.closeTransition]) ∧
    (getSys (tqdm_tk.close fmtEmpty c4sys)).winState =
      some { winStateOf c4sys with wmDelete := WmHandler.closeInternal } ∧
    (trigSys fmtEmpty (getSys (tqdm_tk.close fmtEmpty c4sys))).map winIdlePending =
      some (some true) ∧
    (trigSys fmtEmpty (getSys (tqdm_tk.close fmtEmpty c4sys))).map winDestroyed =
      some (some (winStateOf c4sys).destroyed) :=
  claim_c4_leave_in_mainloop fmtEmpty c4sys (winStateOf c4sys)
    (by decide) (by decide) (by decide) (by decide)

/-- Claim C5 counterexample: with `leave=false` while a mainloop
dispatches, `close()` does NOT destroy the window immediately — it only
schedules the destroy on the loop's idle queue and returns with the window
still alive, refuting "destroys immediately regardless of dispatch
state". -/
theorem claim_c5_counterexample :
    c5sys.handle.leave = false ∧ c5sys.handle.tkDispatching = true ∧
    c5sys.handle.disable = false ∧
    winDestroyed (getSys (tqdm_tk.close fmtEmpty c5sys)) = some false ∧
    winIdlePending (getSys (tqdm_tk.close fmtEmpty c5sys)) = some true := by
  decide

/-- Claim C5 (amended): for a live windowed handle with `leave=false`,
`close()` always runs the destroy sequence unconditionally and without
warning; the window is destroyed before `close()` returns exactly when no
mainloop is dispatching, and otherwise the destroy is left scheduled on the
dispatching loop's idle processing. -/
theorem claim_c5_no_leave (fmt : Snapshot → Chars) (s : Sys) (w : WindowState)
    (hdis : s.handle.disable = false) (hleave : s.handle.leave = false)
    (hw : s.winState = some w) (hd0 : w.destroyed = false) :
    tqdm_tk.close fmt s = .ok (getSys (tqdm_tk.close fmt s), [Ev.closeTransition]) ∧
    winDestroyed (getSys (tqdm_tk.close fmt s)) = some (!s.handle.tkDispatching) ∧
    winIdlePending (getSys (tqdm_tk.close fmt s)) = some s.handle.tkDispatching := by
  unfold Sys.winState at hw
  cases hwin : s.handle.window with
  | none => rw [hwin] at hw; exact absurd hw (by simp)
  | some wobj =>
    cases wobj with
    | tk w0 =>
      rw [hwin] at hw
      have hww : w0 = w := by
        have := hw
        simp [WinObj.state?] at this
        exact this
      subst hww
      by_cases hdisp : s.handle.tkDispatching = true <;>
        refine ⟨?_, ?_, ?_⟩ <;>
          simp [tqdm_tk.close, WinObj.close, TqdmWindowMixin.close, windowCloseInner,
            tkUpdate, hdis, hleave, hdisp, hd0, hwin, isOk, resEvs, getSys, winDestroyed,
            winIdlePending, Sys.winState, WinObj.state?, Bool.not_eq_true] <;>
          split <;> simp [hd0] <;> split <;> simp [hd0]
    | toplevel w0 =>
      rw [hwin] at hw
      have hww : w0 = w := by
        have := hw
        simp [WinObj.state?] at this
        exact this
      subst hww
      by_cases hdisp : s.handle.tkDispatching = true <;>
        refine ⟨?_, ?_, ?_⟩ <;>
          simp [tqdm_tk.close, WinObj.close, TqdmWindowMixin.close, windowCloseInner,
            tkUpdate, hdis, hleave, hdisp, hd0, hwin, isOk, resEvs, getSys, winDestroyed,
            winIdlePending, Sys.winState, WinObj.state?, Bool.not_eq_true] <;>
          split <;> simp [hd0] <;> split <;> simp [hd0]
    | embedded w0 p =>
      rw [hwin] at hw
      exact absurd hw (by simp [WinObj.state?])

theorem claim_c5_witness :
    tqdm_tk.close fmtEmpty c5sys = .ok (getSys (tqdm_tk.close fmtEmpty c5sys), [Ev.closeTransition]) ∧
    winDestroyed (getSys (tqdm_tk.close fmtEmpty c5sys)) =
      some (!c5sys.handle.tkDispatching) ∧
    winIdlePending (getSys (tqdm_tk.close fmtEmpty c5sys)) =
      some c5sys.handle.tkDispatching :=
  claim_c5_no_leave fmtEmpty c5sys (winStateOf c5sys)
    (by decide) (by decide) (by decide) (by decide)

/-- Claim C8: on a live windowed handle whose close protocol is still the
construction-time binding, the window's close control triggers exactly the
handle's `cancel()`, which invokes the user-supplied cancel callback exactly
once (skipped when absent) and then performs exactly one `close()`
transition, in that order. -/
theorem claim_c8_cancel_order (fmt : Snapshot → Chars) (s : Sys) (w : WindowState)
    (hdis : s.handle.disable = false)
    (hw : s.winState = some w) (hwm : w.wmDelete = WmHandler.cancelHandle) :
    triggerCloseControl fmt s = some (tqdm_tk.cancel fmt s) ∧
    isOk (tqdm_tk.cancel fmt s) = true ∧
    (resEvs (tqdm_tk.cancel fmt s)).count Ev.userCancelCallback =
      (if s.handle.hasCancelCallback then 1 else 0) ∧
    (resEvs (tqdm_tk.cancel fmt s)).count Ev.closeTransition = 1 ∧
    (resEvs (tqdm_tk.cancel fmt s)).head? =
      some (if s.handle.hasCancelCallback then Ev.userCancelCallback
            else Ev.closeTransition) ∧
    (s.handle.hasCancelCallback = true →
      (resEvs (tqdm_tk.cancel fmt s)).tail.head? = some Ev.closeTransition) := by
  unfold Sys.winState at hw
  cases hwin : s.handle.window with
  | none => rw [hwin] at hw; exact absurd hw (by simp)
  | some wobj =>
    cases wobj with
    | tk w0 =>
      rw [hwin] at hw
      have hww : w0 = w := by
        have := hw
        simp [WinObj.state?] at this
        exact this
      subst hww
      by_cases hcb : s.handle.hasCancelCallback = true <;>
      by_cases hl : s.handle.leave = true <;>
      by_cases hdp : s.handle.tkDispatching = true <;>
      by_cases hwl : s.handle.warnLeave = true <;>
        simp [triggerCloseControl, tqdm_tk.cancel, tqdm_tk.close, WinObj.close,
          TqdmWindowMixin.close, windowCloseInner, tkUpdate, hdis, hwin, hwm, hcb, hl,
          hdp, hwl, isOk, resEvs, Bool.not_eq_true, List.count_cons, List.count_nil]
    | toplevel w0 =>
      rw [hwin] at hw
      have hww : w0 = w := by
        have := hw
        simp [WinObj.state?] at this
        exact this
      subst hww
      by_cases hcb : s.handle.hasCancelCallback = true <;>
      by_cases hl : s.handle.leave = true <;>
      by_cases hdp : s.handle.tkDispatching = true <;>
      by_cases hwl : s.handle.warnLeave = true <;>
        simp [triggerCloseControl, tqdm_tk.cancel, tqdm_tk.close, WinObj.close,
          TqdmWindowMixin.close, windowCloseInner, tkUpdate, hdis, hwin, hwm, hcb, hl,
          hdp, hwl, isOk, resEvs, Bool.not_eq_true, List.count_cons, List.count_nil]
    | embedded w0 p =>
      rw [hwin] at hw
      exact absurd hw (by simp [WinObj.state?])

theorem claim_c8_witness :
    triggerCloseControl fmtEmpty c8sys = some (tqdm_tk.cancel fmtEmpty c8sys) ∧
    isOk (tqdm_tk.cancel fmtEmpty c8sys) = true ∧
    (resEvs (tqdm_tk.cancel fmtEmpty c8sys)).count Ev.userCancelCallback =
      (if c8sys.handle.hasCancelCallback then 1 else 0) ∧
    (resEvs (tqdm_tk.cancel fmtEmpty c8sys)).count Ev.closeTransition = 1 ∧
    (resEvs (tqdm_tk.cancel fmtEmpty c8sys)).head? =
      some (if c8sys.handle.hasCancelCallback then Ev.userCancelCallback
            else Ev.closeTransition) ∧
    (c8sys.handle.hasCancelCallback = true →
      (resEvs (tqdm_tk.cancel fmtEmpty c8sys)).tail.head? = some Ev.closeTransition) :=
  claim_c8_cancel_order fmtEmpty c8sys (winStateOf c8sys)
    (by decide) (by decide) (by decide)

